import Mathlib

/-!
Verification development for the Shopify public-app webhook pipeline.

The definitions below are a shallow embedding of the Python sources:
models.py (relational schema), app.py (webhook endpoints, signature
verifier, background processors) and tasks.py (worker-pool processors).
Machine-level primitives used by the code (hashlib SHA-256, hmac,
base64, Python float) are embedded as executable Lean functions over
Nat / Rat, with 32-bit words represented as naturals reduced mod 2^32.
-/

namespace ShopifyApp

/-! ## SHA-256 (hashlib.sha256), FIPS 180-4, byte messages as List Nat -/

/-- Reduce to a 32-bit word. -/
def w32 (n : Nat) : Nat := n % 2 ^ 32

/-- Rotate a 32-bit word right by n bits. -/
def rotr32 (x n : Nat) : Nat := w32 ((x >>> n) ||| (x <<< (32 - n)))

def bsig0 (x : Nat) : Nat := rotr32 x 2 ^^^ rotr32 x 13 ^^^ rotr32 x 22

def bsig1 (x : Nat) : Nat := rotr32 x 6 ^^^ rotr32 x 11 ^^^ rotr32 x 25

def ssig0 (x : Nat) : Nat := rotr32 x 7 ^^^ rotr32 x 18 ^^^ (x >>> 3)

def ssig1 (x : Nat) : Nat := rotr32 x 17 ^^^ rotr32 x 19 ^^^ (x >>> 10)

/-- Ch(x,y,z); the complement of x is taken within 32 bits. -/
def chF (x y z : Nat) : Nat := (x &&& y) ^^^ ((2 ^ 32 - 1 - w32 x) &&& z)

def majF (x y z : Nat) : Nat := (x &&& y) ^^^ (x &&& z) ^^^ (y &&& z)

/-- The 64 SHA-256 round constants (FIPS 180-4, in decimal). -/
def sha256K : List Nat :=
  [1116352408, 1899447441, 3049323471, 3921009573, 961987163,
   1508970993, 2453635748, 2870763221, 3624381080, 310598401,
   607225278, 1426881987, 1925078388, 2162078206, 2614888103,
   3248222580, 3835390401, 4022224774, 264347078, 604807628,
   770255983, 1249150122, 1555081692, 1996064986, 2554220882,
   2821834349, 2952996808, 3210313671, 3336571891, 3584528711,
   113926993, 338241895, 666307205, 773529912, 1294757372,
   1396182291, 1695183700, 1986661051, 2177026350, 2456956037,
   2730485921, 2820302411, 3259730800, 3345764771, 3516065817,
   3600352804, 4094571909, 275423344, 430227734, 506948616,
   659060556, 883997877, 958139571, 1322822218, 1537002063,
   1747873779, 1955562222, 2024104815, 2227730452, 2361852424,
   2428436474, 2756734187, 3204031479, 3329325298]

/-- The eight 32-bit working variables of the hash state. -/
structure Sha256State where
  a : Nat
  b : Nat
  c : Nat
  d : Nat
  e : Nat
  f : Nat
  g : Nat
  h : Nat
deriving DecidableEq, Repr

/-- Initial hash value H(0) (FIPS 180-4, in decimal). -/
def sha256H0 : Sha256State :=
  ⟨1779033703, 3144134277, 1013904242, 2773480762,
   1359893119, 2600822924, 528734635, 1541459225⟩

/-- One round of the compression function. -/
def compressRound (s : Sha256State) (k w : Nat) : Sha256State :=
  let t1 := w32 (s.h + bsig1 s.e + chF s.e s.f s.g + k + w)
  let t2 := w32 (bsig0 s.a + majF s.a s.b s.c)
  ⟨w32 (t1 + t2), s.a, s.b, s.c, w32 (s.d + t1), s.e, s.f, s.g⟩

/-- Big-endian 32-bit words from a byte list. -/
def toWords : List Nat → List Nat
  | a :: b :: c :: d :: rest => (((a * 256 + b) * 256 + c) * 256 + d) :: toWords rest
  | _ => []

/-- Extend the 16 chunk words to the 64-entry message schedule. -/
def schedule (w16 : List Nat) : List Nat :=
  (List.range 48).foldl
    (fun w _ =>
      let n := w.length
      w ++ [w32 (w.getD (n - 16) 0 + ssig0 (w.getD (n - 15) 0) +
                 w.getD (n - 7) 0 + ssig1 (w.getD (n - 2) 0))])
    w16

/-- Compress one 64-byte chunk into the running hash state. -/
def compressChunk (H : Sha256State) (chunk : List Nat) : Sha256State :=
  let ws := schedule (toWords chunk)
  let s := (sha256K.zip ws).foldl (fun s kw => compressRound s kw.1 kw.2) H
  ⟨w32 (H.a + s.a), w32 (H.b + s.b), w32 (H.c + s.c), w32 (H.d + s.d),
   w32 (H.e + s.e), w32 (H.f + s.f), w32 (H.g + s.g), w32 (H.h + s.h)⟩

/-- Fold the compression function over successive 64-byte chunks. -/
def processChunks (H : Sha256State) (l : List Nat) : Sha256State :=
  match l with
  | [] => H
  | x :: rest => processChunks (compressChunk H ((x :: rest).take 64)) (rest.drop 63)
termination_by l.length
decreasing_by simp [List.length_drop]; omega

/-- Big-endian 8-byte encoding of a 64-bit length field. -/
def be64 (n : Nat) : List Nat :=
  [n >>> 56 % 256, n >>> 48 % 256, n >>> 40 % 256, n >>> 32 % 256,
   n >>> 24 % 256, n >>> 16 % 256, n >>> 8 % 256, n % 256]

/-- SHA-256 padding: 0x80, zeros to 56 mod 64, then the bit length. -/
def padMessage (msg : List Nat) : List Nat :=
  let len := msg.length
  let zeros := (120 - (len + 1) % 64) % 64
  msg ++ 0x80 :: (List.replicate zeros 0 ++ be64 (8 * len))

/-- Pack the final state into one 256-bit natural (words are 32-bit). -/
def stateToNat (s : Sha256State) : Nat :=
  ((((((w32 s.a * 2 ^ 32 + w32 s.b) * 2 ^ 32 + w32 s.c) * 2 ^ 32 + w32 s.d) * 2 ^ 32 + w32 s.e)
      * 2 ^ 32 + w32 s.f) * 2 ^ 32 + w32 s.g) * 2 ^ 32 + w32 s.h

/-- The SHA-256 digest of a byte message, as a 256-bit natural. -/
def sha256Nat (msg : List Nat) : Nat := stateToNat (processChunks sha256H0 (padMessage msg))

/-- The 32 digest bytes (big-endian) of a 256-bit digest value. -/
def digestBytes (n : Nat) : List Nat :=
  [n >>> 248 % 256, n >>> 240 % 256, n >>> 232 % 256, n >>> 224 % 256,
   n >>> 216 % 256, n >>> 208 % 256, n >>> 200 % 256, n >>> 192 % 256,
   n >>> 184 % 256, n >>> 176 % 256, n >>> 168 % 256, n >>> 160 % 256,
   n >>> 152 % 256, n >>> 144 % 256, n >>> 136 % 256, n >>> 128 % 256,
   n >>> 120 % 256, n >>> 112 % 256, n >>> 104 % 256, n >>> 96 % 256,
   n >>> 88 % 256, n >>> 80 % 256, n >>> 72 % 256, n >>> 64 % 256,
   n >>> 56 % 256, n >>> 48 % 256, n >>> 40 % 256, n >>> 32 % 256,
   n >>> 24 % 256, n >>> 16 % 256, n >>> 8 % 256, n % 256]

/-! ## HMAC-SHA256 (hmac.new(secret, data, hashlib.sha256)) -/

/-- UTF-8 encoding of a Python str, as a byte list. -/
def utf8Bytes (s : String) : List Nat := s.toUTF8.toList.map (fun b => b.toNat)

/-- The 64-byte HMAC block key derived from the secret. -/
def hmacBlockKey (secret : String) : List Nat :=
  let kb := utf8Bytes secret
  let k0 := if kb.length > 64 then digestBytes (sha256Nat kb) else kb
  k0 ++ List.replicate (64 - k0.length) 0

/-- HMAC-SHA256 digest (RFC 2104) of a message under a text secret. -/
def hmacNat (secret : String) (msg : List Nat) : Nat :=
  let kp := hmacBlockKey secret
  sha256Nat ((kp.map (fun b => b ^^^ 0x5c)) ++
             digestBytes (sha256Nat ((kp.map (fun b => b ^^^ 0x36)) ++ msg)))

/-! ## base64.b64encode -/

def b64Alphabet : List Char :=
  "ABCDEFGHIJKLMNOPQRSTUVWXYZabcdefghijklmnopqrstuvwxyz0123456789+/".data

def b64c (n : Nat) : Char := b64Alphabet.getD n 'A'

/-- Standard base64 with '=' padding, over byte lists. -/
def b64encodeList : List Nat → List Char
  | a :: b :: c :: rest =>
      let n := (a * 256 + b) * 256 + c
      b64c (n / 262144 % 64) :: b64c (n / 4096 % 64) :: b64c (n / 64 % 64) :: b64c (n % 64) ::
        b64encodeList rest
  | [a, b] =>
      let n := (a * 256 + b) * 256
      [b64c (n / 262144 % 64), b64c (n / 4096 % 64), b64c (n / 64 % 64), '=']
  | [a] =>
      let n := a * 65536
      [b64c (n / 262144 % 64), b64c (n / 4096 % 64), '=', '=']
  | [] => []

def b64String (bytes : List Nat) : String := String.mk (b64encodeList bytes)

/-! ## app.py: verify_webhook -/

/-- base64.b64encode(hmac.new(secret, data, sha256).digest()).decode() -/
def computedHmacBase64 (secret : String) (data : List Nat) : String :=
  b64String (digestBytes (hmacNat secret data))

/--
app.py verify_webhook(data, signature).  webhookSecret models the
WEBHOOK_SECRET environment value (none when unset); data is the raw
request body; signature the X-Shopify-Hmac-Sha256 header (none when
absent).  Python truthiness tests on the two strings are modelled by
the explicit empty-string cases.  hmac.compare_digest on equal-length
strings decides string equality.
-/
def verify_webhook (webhookSecret : Option String) (data : List Nat)
    (signature : Option String) : Bool :=
  match webhookSecret with
  | none => true
  | some sec =>
    if sec = "" then true
    else
      match signature with
      | none => false
      | some s =>
        if s = "" then false
        else
          let calculated := computedHmacBase64 sec data
          if calculated.length ≠ s.length then false
          else decide (calculated = s)

/-! ## Python float: decimal-string parsing and binary64 rounding

app.py and tasks.py convert the vendor's decimal price strings with
float(...), i.e. to an IEEE-754 binary64 value.  We embed the value of
that double as the exact rational it denotes: round-to-nearest, ties to
even, 53-bit significand, exponent unbounded (faithful for the normal
range, where all currency amounts live).
-/

/-- Number of bits of n (0 for 0); fuel-based so the kernel can reduce it. -/
def bitLenAux : Nat → Nat → Nat
  | 0, _ => 0
  | _, 0 => 0
  | fuel + 1, n + 1 => bitLenAux fuel ((n + 1) / 2) + 1

def bitLen (n : Nat) : Nat := bitLenAux n n

/-- floor(n * 2^k / d) together with the remainder and effective denominator. -/
def floorScaled (n d : Nat) (k : Int) : Nat × Nat × Nat :=
  if 0 ≤ k then
    let num := n * 2 ^ k.toNat
    (num / d, num % d, d)
  else
    let den := d * 2 ^ (-k).toNat
    (n / den, n % den, den)

/-- Round a truncated quotient to nearest, ties to even. -/
def roundHalfEven (m r den : Nat) : Nat :=
  if den < 2 * r then m + 1
  else if 2 * r < den then m
  else if m % 2 = 0 then m else m + 1

/-- The rational value m * 2^(-k) of a significand/scale pair. -/
def dyadicOfScaled (m : Nat) (k : Int) : ℚ :=
  if 0 ≤ k then (m : ℚ) / ((2 ^ k.toNat : Nat) : ℚ)
  else (m : ℚ) * ((2 ^ (-k).toNat : Nat) : ℚ)

/-- Binary64 rounding of the positive rational n/d (n, d ≥ 1). -/
def pyFloatPos (n d : Nat) : ℚ :=
  let k0 : Int := 52 + (bitLen d : Int) - (bitLen n : Int)
  let m0 := (floorScaled n d k0).1
  let k : Int := if m0 < 2 ^ 52 then k0 + 1 else if 2 ^ 53 ≤ m0 then k0 - 1 else k0
  let sc := floorScaled n d k
  dyadicOfScaled (roundHalfEven sc.1 sc.2.1 sc.2.2) k

/-- The exact rational value of Python float(q) for a rational q. -/
def pyFloat (q : ℚ) : ℚ :=
  if q = 0 then 0
  else if q < 0 then -pyFloatPos q.num.natAbs q.den
  else pyFloatPos q.num.natAbs q.den

/-- Accumulating decimal-digit parser; none on a non-digit or empty input. -/
def parseNatDigits : List Char → Option Nat → Option Nat
  | [], acc => acc
  | c :: cs, acc =>
      if c.isDigit then parseNatDigits cs (some ((acc.getD 0) * 10 + (c.toNat - 48)))
      else none

/--
The exact rational denoted by a decimal string such as "29.99" or "0.1"
(the grammar accepted by float() restricted to unsigned fixed-point
numerals, which is the form the vendor uses for price fields); none
models float() raising ValueError.
-/
def parseDecimal (s : String) : Option ℚ :=
  let sp := s.data.span (fun c => c != '.')
  match sp.2 with
  | [] => (parseNatDigits sp.1 none).map (fun n => (n : ℚ))
  | _ :: fp =>
      if fp.contains '.' then none
      else
        match parseNatDigits sp.1 none, parseNatDigits fp none with
        | some i, some f => some ((i : ℚ) + (f : ℚ) / (10 : ℚ) ^ fp.length)
        | _, _ => none

/-- A rational is dyadic when clearing a power of two makes it integral;
every finite binary64 value is dyadic. -/
def IsDyadic (q : ℚ) : Prop := ∃ (m : Int) (k : Nat), q * 2 ^ k = (m : ℚ)

/-! ## JSON payloads

Webhook payloads are the result of json.loads on the request body; the
processors access them with dict indexing and .get.  Only the shapes the
code touches are needed: numbers, strings and objects.
-/

inductive JsonVal where
  | num (n : Nat)
  | str (s : String)
  | obj (fields : List (String × JsonVal))

mutual

def JsonVal.decEq : (a b : JsonVal) → Decidable (a = b)
  | .num x, .num y =>
    match Nat.decEq x y with
    | isTrue h => isTrue (by rw [h])
    | isFalse h => isFalse (fun he => h (by cases he; rfl))
  | .str x, .str y =>
    match String.decEq x y with
    | isTrue h => isTrue (by rw [h])
    | isFalse h => isFalse (fun he => h (by cases he; rfl))
  | .obj xs, .obj ys =>
    match JsonVal.decEqFields xs ys with
    | isTrue h => isTrue (by rw [h])
    | isFalse h => isFalse (fun he => h (by cases he; rfl))
  | .num _, .str _ => isFalse (fun he => JsonVal.noConfusion he)
  | .num _, .obj _ => isFalse (fun he => JsonVal.noConfusion he)
  | .str _, .num _ => isFalse (fun he => JsonVal.noConfusion he)
  | .str _, .obj _ => isFalse (fun he => JsonVal.noConfusion he)
  | .obj _, .num _ => isFalse (fun he => JsonVal.noConfusion he)
  | .obj _, .str _ => isFalse (fun he => JsonVal.noConfusion he)

def JsonVal.decEqFields : (xs ys : List (String × JsonVal)) → Decidable (xs = ys)
  | [], [] => isTrue rfl
  | [], _ :: _ => isFalse (fun he => List.noConfusion he)
  | _ :: _, [] => isFalse (fun he => List.noConfusion he)
  | (k, v) :: xs, (k2, v2) :: ys =>
    match String.decEq k k2, JsonVal.decEq v v2, JsonVal.decEqFields xs ys with
    | isTrue h1, isTrue h2, isTrue h3 => isTrue (by rw [h1, h2, h3])
    | isFalse h1, _, _ => isFalse (fun he => by cases he; exact h1 rfl)
    | _, isFalse h2, _ => isFalse (fun he => by cases he; exact h2 rfl)
    | _, _, isFalse h3 => isFalse (fun he => by cases he; exact h3 rfl)

end

instance : DecidableEq JsonVal := JsonVal.decEq

/-- dict.get(key): the first binding of the key, none when absent
(indexing raises KeyError exactly when this is none). -/
def jget : JsonVal → String → Option JsonVal
  | .obj fs, key => (fs.find? (fun kv => kv.1 == key)).map (fun kv => kv.2)
  | _, _ => none

/-- Python truthiness of an optional JSON value (None, "", 0 and {} are
falsy), as tested by the processors' early-return guards. -/
def isFalsy : Option JsonVal → Bool
  | none => true
  | some (.num n) => n == 0
  | some (.str s) => s == ""
  | some (.obj fs) => fs.isEmpty

/-- float(x) applied to a JSON value: decimal strings are parsed and
rounded to binary64; integers in the payload range are exact. -/
def jfloat : Option JsonVal → Option ℚ
  | some (.str s) => (parseDecimal s).map pyFloat
  | some (.num n) => some ((n : ℚ))
  | _ => none

/-! ## models.py: relational rows and database state

One structure per table, one field per column.  Timestamps are naturals
supplied by an explicit clock argument (datetime.utcnow).  Column values
live at the Python object level, so WebhookLog.shop_id is an Option even
though the column is declared NOT NULL (models.py, nullable=False); the
schema-level column-name lists below are what SQLAlchemy's declarative
constructor checks keyword arguments against.
-/

structure ShopRow where
  id : Nat
  shop_domain : String
  access_token : String
  created_at : Nat
  updated_at : Nat
  is_active : Bool
deriving DecidableEq, Repr

structure ProductSyncRow where
  id : Nat
  shop_id : Nat
  product_id : Nat
  title : String
  handle : String
  status : String
  product_type : Option String
  vendor : Option String
  tags : Option String
  created_at : Nat
  last_synced : Nat
deriving DecidableEq, Repr

structure OrderSyncRow where
  id : Nat
  shop_id : Nat
  order_id : Nat
  order_number : String
  status : String
  financial_status : Option String
  fulfillment_status : Option String
  total_price : ℚ
  subtotal_price : Option ℚ
  total_tax : Option ℚ
  currency : String
  customer_email : Option String
  customer_phone : Option String
  created_at : Nat
  last_synced : Nat
deriving DecidableEq, Repr

structure OrderLineItemRow where
  id : Nat
  order_sync_id : Nat
  line_item_id : Nat
  title : String
  quantity : Nat
  price : ℚ
  created_at : Nat
deriving DecidableEq, Repr

structure InventoryLevelRow where
  id : Nat
  shop_id : Nat
  inventory_item_id : Nat
  location_id : Nat
  available : Nat
  created_at : Nat
  last_synced : Nat
deriving DecidableEq, Repr

structure WebhookLogRow where
  id : Nat
  shop_id : Option Nat
  webhook_type : String
  resource_id : JsonVal
  status : String
  error_message : Option String
  processed_at : Nat
  retry_count : Nat
deriving DecidableEq

/-- The relational store; nextId supplies surrogate primary keys. -/
structure DB where
  shops : List ShopRow
  products : List ProductSyncRow
  orders : List OrderSyncRow
  order_line_items : List OrderLineItemRow
  inventory_levels : List InventoryLevelRow
  logs : List WebhookLogRow
  nextId : Nat
deriving DecidableEq

/-- The mapped column names of WebhookLog in models.py. -/
def webhookLogColumnNames : List String :=
  ["id", "shop_id", "webhook_type", "resource_id", "status",
   "error_message", "processed_at", "retry_count"]

/-- The mapped column names of OrderLineItem in models.py
(there is no shop_id column; the table links to order_sync). -/
def orderLineItemColumnNames : List String :=
  ["id", "order_sync_id", "line_item_id", "product_id", "variant_id",
   "title", "variant_title", "quantity", "price", "total_discount",
   "sku", "vendor", "created_at"]

/-- The keyword arguments app.py passes when constructing the audit
WebhookLog in all three compliance processors. -/
def complianceLogKwargs : List String :=
  ["shop_id", "webhook_type", "resource_id", "status", "payload"]

/-- SQLAlchemy's declarative constructor accepts the keywords only when
each one is a mapped attribute of the model; otherwise it raises
TypeError before the instance exists. -/
def kwargsAccepted (kwargs cols : List String) : Bool :=
  kwargs.all (fun k => cols.contains k)

/-- Shop.query.filter_by(shop_domain=d).first() -/
def findShopByDomain (st : DB) (d : String) : Option ShopRow :=
  st.shops.find? (fun s => s.shop_domain == d)

/-- Mutate the first row matching the predicate, as .first() followed by
attribute assignment does. -/
def updateFirst (p : α → Bool) (f : α → α) : List α → List α
  | [] => []
  | x :: xs => if p x then f x :: xs else x :: updateFirst p f xs

/-- str(n) for the numeric ids the compliance payloads carry; none when
the value is absent, non-numeric or falsy (0). -/
def strOfId : Option JsonVal → Option String
  | some (.num n) => if n == 0 then none else some (toString n)
  | _ => none

/-- order_number values arrive as text or as a number; the String(50)
column stores the textual form. -/
def orderNumberValue : JsonVal → Option String
  | .str s => some s
  | .num n => some (toString n)
  | _ => none

/-! ## app.py: background webhook processors (the tasks the endpoints
enqueue; app.py defines its own celery tasks, distinct from tasks.py) -/

namespace App

/--
app.py process_product_webhook(product_data): resolve the shop from the
payload's shop_domain field, then update-or-insert the ProductSync row
keyed by (shop_id, product_id).  Early return when shop_domain is falsy
or unknown.  Missing required fields (id, title, handle) raise KeyError
before the single commit, so the store is untouched on that path; the
same holds for a non-string domain value, which matches no shop row.
-/
def process_product_webhook (now : Nat) (st : DB) (product_data : JsonVal) : DB :=
  let sd := jget product_data "shop_domain"
  if isFalsy sd then st
  else
    match sd with
    | some (.str d) =>
      match findShopByDomain st d with
      | none => st
      | some shop =>
        match jget product_data "id", jget product_data "title", jget product_data "handle" with
        | some (.num pid), some (.str title), some (.str handle) =>
          let key := fun (r : ProductSyncRow) => r.shop_id == shop.id && r.product_id == pid
          if st.products.any key then
            { st with
              products := updateFirst key
                (fun r => { r with title := title, handle := handle, last_synced := now })
                st.products }
          else
            { st with
              products := st.products ++
                [{ id := st.nextId, shop_id := shop.id, product_id := pid, title := title,
                   handle := handle, status := "active", product_type := none, vendor := none,
                   tags := none, created_at := now, last_synced := now }],
              nextId := st.nextId + 1 }
        | _, _, _ => st
    | _ => st

/--
app.py process_order_webhook(order_data): same shape for OrderSync rows
keyed by (shop_id, order_id).  The update branch writes status (from
financial_status), total_price (through float()), currency and a sync
timestamp; the insert branch additionally needs order_number.  Any
KeyError / ValueError is caught before the single commit, leaving the
store untouched.
-/
def process_order_webhook (now : Nat) (st : DB) (order_data : JsonVal) : DB :=
  let sd := jget order_data "shop_domain"
  if isFalsy sd then st
  else
    match sd with
    | some (.str d) =>
      match findShopByDomain st d with
      | none => st
      | some shop =>
        match jget order_data "id" with
        | some (.num oid) =>
          let key := fun (r : OrderSyncRow) => r.shop_id == shop.id && r.order_id == oid
          match jget order_data "financial_status", jfloat (jget order_data "total_price"),
                jget order_data "currency" with
          | some (.str fs), some tp, some (.str cur) =>
            if st.orders.any key then
              { st with
                orders := updateFirst key
                  (fun r =>
                    { r with
                      status := fs, total_price := tp, currency := cur,
                      last_synced := now })
                  st.orders }
            else
              match (jget order_data "order_number").bind orderNumberValue with
              | some onum =>
                { st with
                  orders := st.orders ++
                    [{ id := st.nextId, shop_id := shop.id, order_id := oid,
                       order_number := onum, status := fs, financial_status := none,
                       fulfillment_status := none, total_price := tp, subtotal_price := none,
                       total_tax := none, currency := cur, customer_email := none,
                       customer_phone := none, created_at := now, last_synced := now }],
                  nextId := st.nextId + 1 }
              | none => st
          | _, _, _ => st
        | _ => st
    | _ => st

/--
app.py process_shop_redact(webhook_data).  The very first statement
constructs WebhookLog(shop_id=None, webhook_type='shop/redact',
resource_id=..., status='processing', payload=json.dumps(webhook_data)).
'payload' is not a mapped attribute of WebhookLog (models.py), so
SQLAlchemy's declarative constructor raises TypeError before the object
exists; the task's except block finds no webhook_log in locals() and
only logs the error, so the store is returned untouched.  The guarded
branch spells out the intended flow; it is unreachable for the schema in
src/models.py (and would itself fail again at the OrderLineItem delete,
whose filter_by names a shop_id column that table does not have).
-/
def process_shop_redact (now : Nat) (st : DB) (webhook_data : JsonVal) : DB :=
  if kwargsAccepted complianceLogKwargs webhookLogColumnNames then
    let sdv := jget webhook_data "shop_domain"
    -- resource_id = shop_domain or str(shop_id) or 'unknown'
    let rid : JsonVal :=
      if !isFalsy sdv then sdv.getD (.str "None")
      else
        match jget webhook_data "shop_id" with
        | some (.num n) => .str (toString n)
        | some (.str s) => if s == "" then .str "unknown" else .str s
        | _ => .str "None"
    let shopRec : Option ShopRow :=
      match sdv with
      | some (.str d) => if d == "" then none else findShopByDomain st d
      | _ => none
    match shopRec with
    | none =>
      -- committing the log with shop_id=None violates the NOT NULL
      -- column; IntegrityError propagates out of the failed-status
      -- commit as well, so nothing is persisted
      st
    | some shop =>
      let log : WebhookLogRow :=
        { id := st.nextId, shop_id := some shop.id, webhook_type := "shop/redact",
          resource_id := rid, status := "processing", error_message := none,
          processed_at := now, retry_count := 0 }
      let st1 := { st with logs := st.logs ++ [log], nextId := st.nextId + 1 }
      -- the three bulk deletes execute inside the open transaction
      let st2 :=
        { st1 with
          orders := st1.orders.filter (fun r => !(r.shop_id == shop.id)),
          products := st1.products.filter (fun r => !(r.shop_id == shop.id)),
          inventory_levels := st1.inventory_levels.filter (fun r => !(r.shop_id == shop.id)) }
      if orderLineItemColumnNames.contains "shop_id" then
        -- intended remainder: line-item and log deletes, shop delete,
        -- completed status (never reached: no such column)
        let st3 :=
          { st2 with
            logs := st2.logs.filter (fun l => !(l.shop_id == some shop.id) || l.id == log.id),
            shops := st2.shops.filter (fun s => !(s.id == shop.id)) }
        { st3 with
          logs := st3.logs.map (fun l => if l.id == log.id then { l with status := "completed" } else l) }
      else
        -- InvalidRequestError: except sets webhook_log.status='failed';
        -- its commit publishes the bulk deletes already executed
        { st2 with
          logs := st2.logs.map (fun l => if l.id == log.id then { l with status := "failed" } else l) }
  else
    st

/--
app.py process_customer_data_request(webhook_data): records an audit
row only (data export is an unimplemented extension point).  The same
WebhookLog constructor call with the unmapped payload keyword raises
TypeError first, so no audit row is ever persisted and the store is
returned untouched; the guarded branch is the intended flow, dead for
the schema in src/models.py.
-/
def process_customer_data_request (now : Nat) (st : DB) (webhook_data : JsonVal) : DB :=
  if kwargsAccepted complianceLogKwargs webhookLogColumnNames then
    let customerId := (jget webhook_data "customer").bind (fun c => jget c "id")
    let dataRequestId := (jget webhook_data "data_request").bind (fun d => jget d "id")
    let rid : JsonVal := .str ((strOfId customerId).getD ((strOfId dataRequestId).getD "unknown"))
    let shopRec : Option ShopRow :=
      match jget webhook_data "shop_domain" with
      | some (.str d) => if d == "" then none else findShopByDomain st d
      | _ => none
    match shopRec with
    | none =>
      -- shop_id stays None: the commit violates the NOT NULL column and
      -- nothing is persisted
      st
    | some shop =>
      -- committed as 'processing', then updated to 'completed'
      { st with
        logs := st.logs ++
          [{ id := st.nextId, shop_id := some shop.id, webhook_type := "customers/data_request",
             resource_id := rid, status := "completed", error_message := none,
             processed_at := now, retry_count := 0 }],
        nextId := st.nextId + 1 }
  else
    st

/-- An HTTP response: status code plus the jsonify'd body fields. -/
structure HttpResponse where
  status : Nat
  body : List (String × String)
deriving DecidableEq, Repr

/--
app.py webhook_products_create endpoint: verify the signature over the
raw body, parse, enqueue, acknowledge.  parsed stands for the result of
json.loads on the raw bytes (none: JSONDecodeError/UnicodeDecodeError);
enqueueOk models whether .delay reached the broker.  The second
component is the payload handed to the worker task, if any.
-/
def webhook_products_create (secret : Option String) (raw : List Nat) (sig : Option String)
    (parsed : Option JsonVal) (enqueueOk : Bool) : HttpResponse × Option JsonVal :=
  if verify_webhook secret raw sig = false then
    ({ status := 401, body := [("error", "Invalid signature")] }, none)
  else
    match parsed with
    | none => ({ status := 400, body := [("error", "Invalid JSON")] }, none)
    | some product_data =>
      if enqueueOk then
        ({ status := 200, body := [("status", "success")] }, some product_data)
      else
        ({ status := 200, body := [("status", "queued with errors")] }, none)

end App

/-! ## tasks.py: worker-pool processors -/

namespace Tasks

/--
tasks.py process_product_webhook(product_data, shop_domain): unlike the
app.py variant, the shop domain is a task argument and a WebhookLog row
is written (all constructor keywords are mapped columns here).  On
success the row is committed with status 'success'; on a missing
product field the except block commits it with status 'error'.  A
missing 'id' raises while the constructor arguments are being
evaluated, before the log object exists, so nothing is persisted.
Non-numeric id values do not occur in vendor payloads and are treated
as the error path.
-/
def process_product_webhook (now : Nat) (st : DB) (product_data : JsonVal)
    (shop_domain : String) : DB :=
  match findShopByDomain st shop_domain with
  | none => st
  | some shop =>
    match jget product_data "id" with
    | none => st
    | some pid =>
      let log : WebhookLogRow :=
        { id := st.nextId, shop_id := some shop.id, webhook_type := "product",
          resource_id := pid, status := "processing", error_message := none,
          processed_at := now, retry_count := 0 }
      match pid, jget product_data "title", jget product_data "handle" with
      | .num pidn, some (.str title), some (.str handle) =>
        let statusV := match jget product_data "status" with
          | some (.str s) => s
          | _ => "active"
        let key := fun (r : ProductSyncRow) => r.shop_id == shop.id && r.product_id == pidn
        let products' :=
          if st.products.any key then
            updateFirst key
              (fun r =>
                { r with
                  title := title, handle := handle, status := statusV,
                  last_synced := now })
              st.products
          else
            st.products ++
              [{ id := st.nextId + 1, shop_id := shop.id, product_id := pidn, title := title,
                 handle := handle, status := statusV, product_type := none, vendor := none,
                 tags := none, created_at := now, last_synced := now }]
        { st with products := products',
                  logs := st.logs ++ [{ log with status := "success" }],
                  nextId := st.nextId + 2 }
      | _, _, _ =>
        { st with
          logs := st.logs ++ [{ log with status := "error", error_message := some "KeyError" }],
          nextId := st.nextId + 1 }

end Tasks

/-! ## General lemmas about updateFirst (the .first()-then-assign pattern) -/

universe u
variable {α : Type u}

theorem countP_updateFirst (p : α → Bool) (f : α → α) (hf : ∀ x, p (f x) = p x) :
    ∀ l : List α, (updateFirst p f l).countP p = l.countP p
  | [] => rfl
  | x :: xs => by
    unfold updateFirst
    cases hpx : p x with
    | true => simp [hpx, List.countP_cons, hf]
    | false => simp [hpx, List.countP_cons, countP_updateFirst p f hf xs]

theorem filter_updateFirst (p : α → Bool) (f : α → α) (hf : ∀ x, p (f x) = p x) :
    ∀ l : List α, l.countP p ≤ 1 → (updateFirst p f l).filter p = (l.filter p).map f
  | [], _ => rfl
  | x :: xs, h => by
    unfold updateFirst
    cases hpx : p x with
    | true =>
      have hcons : (x :: xs).countP p = xs.countP p + 1 := by
        simp [List.countP_cons, hpx]
      have hxs : xs.countP p = 0 := by omega
      have hfil : xs.filter p = [] :=
        List.filter_eq_nil_iff.mpr (List.countP_eq_zero.mp hxs)
      have hffx : p (f x) = true := by rw [hf]; exact hpx
      simp [hpx, hffx, hfil, List.filter_cons]
    | false =>
      have hcons : (x :: xs).countP p = xs.countP p := by
        simp [List.countP_cons, hpx]
      have hxs : xs.countP p ≤ 1 := by omega
      simp [hpx, List.filter_cons, filter_updateFirst p f hf xs hxs]

/-! ## Digest bounds and the shape of the expected signature string -/

theorem mulAdd_lt {x y B W : Nat} (hx : x < B) (hy : y < W) : x * W + y < B * W :=
  calc x * W + y < x * W + W := by omega
    _ = (x + 1) * W := by ring
    _ ≤ B * W := Nat.mul_le_mul_right W hx

theorem stateToNat_lt (s : Sha256State) : stateToNat s < 2 ^ 256 := by
  have hw : ∀ x : Nat, w32 x < 2 ^ 32 := fun x => Nat.mod_lt _ (by norm_num)
  unfold stateToNat
  have h1 : w32 s.a * 2 ^ 32 + w32 s.b < 2 ^ 32 * 2 ^ 32 := mulAdd_lt (hw s.a) (hw s.b)
  have h2 := mulAdd_lt h1 (hw s.c)
  have h3 := mulAdd_lt h2 (hw s.d)
  have h4 := mulAdd_lt h3 (hw s.e)
  have h5 := mulAdd_lt h4 (hw s.f)
  have h6 := mulAdd_lt h5 (hw s.g)
  have h7 := mulAdd_lt h6 (hw s.h)
  calc ((((((w32 s.a * 2 ^ 32 + w32 s.b) * 2 ^ 32 + w32 s.c) * 2 ^ 32 + w32 s.d) * 2 ^ 32
        + w32 s.e) * 2 ^ 32 + w32 s.f) * 2 ^ 32 + w32 s.g) * 2 ^ 32 + w32 s.h
      < 2 ^ 32 * 2 ^ 32 * 2 ^ 32 * 2 ^ 32 * 2 ^ 32 * 2 ^ 32 * 2 ^ 32 * 2 ^ 32 := h7
    _ = 2 ^ 256 := by norm_num

theorem sha256Nat_lt (msg : List Nat) : sha256Nat msg < 2 ^ 256 := stateToNat_lt _

theorem hmacNat_lt (sec : String) (msg : List Nat) : hmacNat sec msg < 2 ^ 256 :=
  sha256Nat_lt _

theorem computedHmacBase64_ne_empty (sec : String) (data : List Nat) :
    computedHmacBase64 sec data ≠ "" := by
  show b64String (digestBytes (hmacNat sec data)) ≠ ""
  intro h
  have hd := congrArg String.data h
  simp only [b64String, digestBytes, b64encodeList] at hd
  exact List.noConfusion hd

/-- The verifier, with a configured non-empty secret, accepts exactly
the base64-encoded HMAC-SHA256 digest of the raw body. -/
theorem verify_eq_iff (sec : String) (hsec : sec ≠ "") (data : List Nat) (s : String) :
    verify_webhook (some sec) data (some s) = true ↔ s = computedHmacBase64 sec data := by
  unfold verify_webhook
  dsimp only
  rw [if_neg hsec]
  by_cases hs : s = ""
  · subst hs
    rw [if_pos rfl]
    simp only [Bool.false_eq_true, false_iff]
    intro he
    exact computedHmacBase64_ne_empty sec data he.symm
  · rw [if_neg hs]
    by_cases hlen : (computedHmacBase64 sec data).length ≠ s.length
    · rw [if_pos hlen]
      simp only [Bool.false_eq_true, false_iff]
      intro he
      exact hlen (by rw [he])
    · rw [if_neg hlen]
      constructor
      · intro hdec
        exact (of_decide_eq_true hdec).symm
      · intro he
        exact decide_eq_true he.symm

/-! ## Dyadic values of the float conversion -/

theorem div_pow_isDyadic (m t : Nat) : IsDyadic ((m : ℚ) / ((2 ^ t : Nat) : ℚ)) := by
  refine ⟨(m : Int), t, ?_⟩
  have h2 : ((2 ^ t : Nat) : ℚ) ≠ 0 := by positivity
  push_cast
  field_simp

theorem mul_pow_isDyadic (m t : Nat) : IsDyadic ((m : ℚ) * ((2 ^ t : Nat) : ℚ)) := by
  refine ⟨(m : Int) * 2 ^ t, 0, ?_⟩
  push_cast
  ring

theorem IsDyadic.neg {q : ℚ} : IsDyadic q → IsDyadic (-q) := by
  rintro ⟨m, k, h⟩
  exact ⟨-m, k, by rw [neg_mul, h]; push_cast; ring⟩

theorem dyadicOfScaled_isDyadic (m : Nat) (k : Int) : IsDyadic (dyadicOfScaled m k) := by
  unfold dyadicOfScaled
  split
  · exact div_pow_isDyadic _ _
  · exact mul_pow_isDyadic _ _

theorem pyFloatPos_isDyadic (n d : Nat) : IsDyadic (pyFloatPos n d) := by
  unfold pyFloatPos
  dsimp only
  exact dyadicOfScaled_isDyadic _ _

/-- Every value Python float() can produce is a dyadic rational. -/
theorem pyFloat_isDyadic (q : ℚ) : IsDyadic (pyFloat q) := by
  unfold pyFloat
  split
  · exact ⟨0, 0, by norm_num⟩
  · split
    · exact (pyFloatPos_isDyadic _ _).neg
    · exact pyFloatPos_isDyadic _ _

/-- The exact decimal 1/10 (the value of the price string "0.1") is not
dyadic, hence not representable by any binary float. -/
theorem one_tenth_not_dyadic : ¬ IsDyadic ((1 : ℚ) / 10) := by
  rintro ⟨m, k, h⟩
  have h2 : ((2 : ℚ) ^ k) = 10 * (m : ℚ) := by
    field_simp at h
    linarith
  have h3 : (2 : Int) ^ k = 10 * m := by exact_mod_cast h2
  have h5 : (5 : Int) ∣ 2 ^ k := ⟨2 * m, by linarith⟩
  have h5n : (5 : Nat) ∣ 2 ^ k := by exact_mod_cast h5
  have hp : (5 : Nat) ∣ 2 := Nat.Prime.dvd_of_dvd_pow (by norm_num) h5n
  omega

/-- The order-webhook insert path stores float(total_price), i.e. the
binary64 rounding of the payload's decimal price string. -/
theorem order_insert_stores_pyFloat (now : Nat) (st : DB) (od : JsonVal) (d : String)
    (shop : ShopRow) (oid : Nat) (fs cur onum s : String) (q : ℚ)
    (hd : jget od "shop_domain" = some (.str d)) (hne : d ≠ "")
    (hshop : findShopByDomain st d = some shop)
    (hid : jget od "id" = some (.num oid))
    (hnew : st.orders.any (fun r => r.shop_id == shop.id && r.order_id == oid) = false)
    (hfs : jget od "financial_status" = some (.str fs))
    (htp : jget od "total_price" = some (.str s))
    (hq : parseDecimal s = some q)
    (hcur : jget od "currency" = some (.str cur))
    (honum : (jget od "order_number").bind orderNumberValue = some onum) :
    (App.process_order_webhook now st od).orders.map (fun r => r.total_price) =
      st.orders.map (fun r => r.total_price) ++ [pyFloat q] ∧
    IsDyadic (pyFloat q) ∧ ¬ IsDyadic ((1 : ℚ) / 10) := by
  refine ⟨?_, pyFloat_isDyadic q, one_tenth_not_dyadic⟩
  have hdf : (d == "") = false := by simp [hne]
  unfold App.process_order_webhook
  rw [hd]
  simp only [isFalsy, hdf, Bool.false_eq_true, if_false, hshop, hid, hfs, htp, jfloat, hq,
    Option.map_some', hcur, hnew, honum]
  simp [List.map_append]

/-- Single-call characterization of the app.py product upsert: the shop
table is untouched and afterwards exactly one row carries the payload's
(shop, product id) key, with the payload's mutable fields. -/
theorem product_upsert_step (now : Nat) (st : DB) (pd : JsonVal) (d : String)
    (shop : ShopRow) (pid : Nat) (title handle : String)
    (hd : jget pd "shop_domain" = some (.str d)) (hne : d ≠ "")
    (hshop : findShopByDomain st d = some shop)
    (hid : jget pd "id" = some (.num pid))
    (ht : jget pd "title" = some (.str title))
    (hh : jget pd "handle" = some (.str handle))
    (hcount : st.products.countP (fun r => r.shop_id == shop.id && r.product_id == pid) ≤ 1) :
    (App.process_product_webhook now st pd).shops = st.shops ∧
    (App.process_product_webhook now st pd).products.countP
        (fun r => r.shop_id == shop.id && r.product_id == pid) = 1 ∧
    ((App.process_product_webhook now st pd).products.filter
        (fun r => r.shop_id == shop.id && r.product_id == pid)).map
        (fun r => (r.title, r.handle)) = [(title, handle)] := by
  have hdf : (d == "") = false := by simp [hne]
  unfold App.process_product_webhook
  rw [hd]
  simp only [isFalsy, hdf, Bool.false_eq_true, if_false, hshop, hid, ht, hh]
  set P := fun r : ProductSyncRow => r.shop_id == shop.id && r.product_id == pid with hP
  cases hany : st.products.any P with
  | true =>
    rw [if_pos rfl]
    have hpos : 0 < st.products.countP P := by
      rw [List.countP_pos_iff]
      exact List.any_eq_true.mp hany
    have hone : st.products.countP P = 1 := by omega
    have hf : ∀ r : ProductSyncRow,
        P { r with title := title, handle := handle, last_synced := now } = P r := fun r => rfl
    refine ⟨rfl, ?_, ?_⟩
    · simpa [countP_updateFirst P _ hf] using hone
    · rw [show ((updateFirst P
        (fun r => { r with title := title, handle := handle, last_synced := now })
        st.products).filter P) = (st.products.filter P).map
          (fun r => { r with title := title, handle := handle, last_synced := now }) from
        filter_updateFirst P _ hf st.products hcount]
      have hlen : (st.products.filter P).length = 1 := by
        rw [← List.countP_eq_length_filter]
        exact hone
      obtain ⟨x, hx⟩ := List.length_eq_one.mp hlen
      rw [hx]
      rfl
  | false =>
    rw [if_neg (by simp)]
    have hzero : st.products.countP P = 0 := by
      rw [List.countP_eq_zero]
      intro a ha hpa
      exact (List.any_eq_false.mp hany) a ha hpa
    have hfil : st.products.filter P = [] :=
      List.filter_eq_nil_iff.mpr (List.countP_eq_zero.mp hzero)
    have hnew : P
        { id := st.nextId, shop_id := shop.id, product_id := pid, title := title,
          handle := handle, status := "active", product_type := none, vendor := none,
          tags := none, created_at := now, last_synced := now } = true := by
      simp [hP]
    refine ⟨rfl, ?_, ?_⟩
    · simp [List.countP_append, hzero, List.countP_cons, hnew]
    · simp [List.filter_append, hfil, List.filter_cons, hnew]

/-! ## Claim theorems -/

/-- A populated shop with one row in every dependent table. -/
def stC1 : DB :=
  { shops := [⟨1, "example.myshopify.com", "tok1", 0, 0, true⟩],
    products := [⟨2, 1, 101, "Chair", "chair", "active", none, none, none, 0, 0⟩],
    orders := [⟨3, 1, 201, "1001", "paid", none, none, mkRat 2999 100, none, none, "USD",
                none, none, 0, 0⟩],
    order_line_items := [⟨4, 3, 301, "Chair", 1, mkRat 2999 100, 0⟩],
    inventory_levels := [⟨5, 1, 401, 501, 7, 0, 0⟩],
    logs := [⟨6, some 1, "product", .num 101, "success", none, 0, 0⟩],
    nextId := 7 }

/-- A shop/redact payload whose domain resolves to the shop above. -/
def pdC1 : JsonVal :=
  .obj [("shop_id", .num 954889), ("shop_domain", .str "example.myshopify.com")]

/-- C1: the shop-redact claim fails on the code.  For a domain that
resolves to an existing Shop, process_shop_redact raises TypeError while
constructing its audit WebhookLog (the payload keyword is not a mapped
column), so it deletes none of the OrderSync / ProductSync /
InventoryLevel / OrderLineItem / WebhookLog / Shop rows and never marks
any log row completed: the store comes back unchanged. -/
theorem shop_redact_existing_shop_deletes_nothing :
    App.process_shop_redact 1 stC1 pdC1 = stC1 ∧
    (App.process_shop_redact 1 stC1 pdC1).shops = stC1.shops ∧ stC1.shops ≠ [] ∧
    ((App.process_shop_redact 1 stC1 pdC1).logs.filter (fun l => l.status == "completed")) = [] := by
  decide

/-- A store with one shop and no product rows. -/
def stC2 : DB :=
  { shops := [⟨1, "idem-shop.myshopify.com", "tok2", 0, 0, true⟩],
    products := [], orders := [], order_line_items := [], inventory_levels := [],
    logs := [], nextId := 2 }

/-- A product payload carrying the shop domain and the required fields. -/
def pdC2 : JsonVal :=
  .obj [("shop_domain", .str "idem-shop.myshopify.com"), ("id", .num 321),
        ("title", .str "Mug"), ("handle", .str "mug")]

/-- C2: the product upsert is idempotent.  For any store whose product
table respects the (shop, vendor product id) at-most-one-row invariant,
processing the same payload twice leaves exactly one ProductSync row for
that key, and its title/handle match the (second) payload. -/
theorem product_upsert_idempotent (now1 now2 : Nat) (st : DB) (pd : JsonVal) (d : String)
    (shop : ShopRow) (pid : Nat) (title handle : String)
    (hd : jget pd "shop_domain" = some (.str d)) (hne : d ≠ "")
    (hshop : findShopByDomain st d = some shop)
    (hid : jget pd "id" = some (.num pid))
    (ht : jget pd "title" = some (.str title))
    (hh : jget pd "handle" = some (.str handle))
    (hcount : st.products.countP (fun r => r.shop_id == shop.id && r.product_id == pid) ≤ 1) :
    (App.process_product_webhook now2 (App.process_product_webhook now1 st pd) pd).products.countP
        (fun r => r.shop_id == shop.id && r.product_id == pid) = 1 ∧
    ((App.process_product_webhook now2 (App.process_product_webhook now1 st pd) pd).products.filter
        (fun r => r.shop_id == shop.id && r.product_id == pid)).map
        (fun r => (r.title, r.handle)) = [(title, handle)] := by
  obtain ⟨hshops1, hcount1, _⟩ :=
    product_upsert_step now1 st pd d shop pid title handle hd hne hshop hid ht hh hcount
  have hshop1 : findShopByDomain (App.process_product_webhook now1 st pd) d = some shop := by
    unfold findShopByDomain
    rw [hshops1]
    exact hshop
  obtain ⟨_, hcount2, hmap2⟩ :=
    product_upsert_step now2 (App.process_product_webhook now1 st pd) pd d shop pid title handle
      hd hne hshop1 hid ht hh (by omega)
  exact ⟨hcount2, hmap2⟩

/-- C2 witness: the idempotence theorem applied at a concrete store and
payload. -/
theorem product_upsert_idempotent_witness :
    findShopByDomain stC2 "idem-shop.myshopify.com" =
      some ⟨1, "idem-shop.myshopify.com", "tok2", 0, 0, true⟩ ∧
    stC2.products.countP (fun r => r.shop_id == 1 && r.product_id == 321) ≤ 1 ∧
    ((App.process_product_webhook 2 (App.process_product_webhook 1 stC2 pdC2) pdC2).products.countP
        (fun r => r.shop_id == 1 && r.product_id == 321) = 1 ∧
      ((App.process_product_webhook 2 (App.process_product_webhook 1 stC2 pdC2) pdC2).products.filter
        (fun r => r.shop_id == 1 && r.product_id == 321)).map
        (fun r => (r.title, r.handle)) = [("Mug", "mug")]) :=
  ⟨rfl, by decide,
   product_upsert_idempotent 1 2 stC2 pdC2 "idem-shop.myshopify.com"
     ⟨1, "idem-shop.myshopify.com", "tok2", 0, 0, true⟩ 321 "Mug" "mug"
     rfl (by decide) rfl rfl rfl rfl (by decide)⟩

/-- C3 (amended): with a configured non-empty secret the verifier
accepts a signature exactly when it equals the base64-encoded
HMAC-SHA256 digest of the raw body; soundness therefore holds up to
digest collisions, not for every distinct body. -/
theorem verify_webhook_accepts_iff_expected (sec : String) (hsec : sec ≠ "")
    (data : List Nat) (s : String) :
    verify_webhook (some sec) data (some s) = true ↔ s = computedHmacBase64 sec data :=
  verify_eq_iff sec hsec data s

/-- C3 witness: the acceptance characterization at a concrete secret,
body and signature. -/
theorem verify_webhook_accepts_iff_expected_witness :
    ("k" : String) ≠ "" ∧
    (verify_webhook (some "k") [104, 105] (some "sig") = true ↔
      ("sig" : String) = computedHmacBase64 "k" [104, 105]) :=
  ⟨by decide, verify_webhook_accepts_iff_expected "k" (by decide) [104, 105] "sig"⟩

/-- C3 counterexample: the claim as stated is false.  The digest space
is finite (2^256 values) while bodies are unbounded, so by the
pigeonhole principle some two distinct bodies share an HMAC digest
under the same secret, and the verifier then accepts the signature
computed over the other body. -/
theorem verify_webhook_collision_negation :
    ¬ ∀ (sec : String), sec ≠ "" → ∀ (body body2 : List Nat), body2 ≠ body →
        verify_webhook (some sec) body (some (computedHmacBase64 sec body2)) = false := by
  intro hclaim
  obtain ⟨x, y, hxy, hg⟩ :=
    Finite.exists_ne_map_eq_of_infinite
      (fun b : List Nat => (⟨hmacNat "k" b, hmacNat_lt "k" b⟩ : Fin (2 ^ 256)))
  have hh : hmacNat "k" x = hmacNat "k" y := congrArg Fin.val hg
  have hcomp : computedHmacBase64 "k" y = computedHmacBase64 "k" x := by
    unfold computedHmacBase64
    rw [hh]
  have hfalse := hclaim "k" (by decide) x y (Ne.symm hxy)
  rw [hcomp] at hfalse
  have htrue : verify_webhook (some "k") x (some (computedHmacBase64 "k" x)) = true :=
    (verify_eq_iff "k" (by decide) x (computedHmacBase64 "k" x)).mpr rfl
  rw [htrue] at hfalse
  exact Bool.noConfusion hfalse

/-- An empty store: the state after a completed redact. -/
def stC4 : DB :=
  { shops := [], products := [], orders := [], order_line_items := [],
    inventory_levels := [], logs := [], nextId := 1 }

/-- A shop/redact payload whose domain matches no stored shop. -/
def pdC4 : JsonVal :=
  .obj [("shop_id", .num 954889), ("shop_domain", .str "ghost.myshopify.com")]

/-- C4: re-redacting an already-redacted shop deletes nothing, which
matches the claim, but the claim's "own audit log row ends completed"
fails: the WebhookLog constructor raises on the unmapped payload
keyword before any row exists, so no audit row at all is written and
none is ever marked completed. -/
theorem shop_redact_unknown_shop_writes_no_completed_log :
    App.process_shop_redact 1 stC4 pdC4 = stC4 ∧ stC4.logs = [] ∧
    ((App.process_shop_redact 1 stC4 pdC4).logs.filter (fun l => l.status == "completed")) = [] := by
  decide

/-- The parsed JSON of the concrete scenario body. -/
def body555 : JsonVal :=
  .obj [("id", .num 555), ("title", .str "Widget"), ("handle", .str "widget")]

/-- The raw UTF-8 bytes of the scenario body the endpoint receives. -/
def rawBody555 : List Nat :=
  [123, 34, 105, 100, 34, 58, 32, 53, 53, 53, 44, 32, 34, 116, 105, 116, 108, 101, 34, 58,
   32, 34, 87, 105, 100, 103, 101, 116, 34, 44, 32, 34, 104, 97, 110, 100, 108, 101, 34,
   58, 32, 34, 119, 105, 100, 103, 101, 116, 34, 125]

/-- A store holding the shop the scenario expects the row under. -/
def stC5 : DB :=
  { shops := [⟨1, "test-shop.myshopify.com", "tok5", 0, 0, true⟩],
    products := [], orders := [], order_line_items := [], inventory_levels := [],
    logs := [], nextId := 2 }

/-- C5 counterexample: the endpoint does answer 200 with status
success and enqueues the payload, but the worker drops it because the
body carries no shop_domain field, so no ProductSync row with
product_id 555 ever exists. -/
theorem products_create_scenario_no_row :
    App.webhook_products_create none rawBody555 none (some body555) true =
      ({ status := 200, body := [("status", "success")] }, some body555) ∧
    App.process_product_webhook 1 stC5 body555 = stC5 ∧
    ((App.process_product_webhook 1 stC5 body555).products.filter
      (fun r => r.product_id == 555)) = [] := by
  decide

/-- The scenario body extended with the shop_domain field the worker
requires. -/
def body555d : JsonVal :=
  .obj [("id", .num 555), ("title", .str "Widget"), ("handle", .str "widget"),
        ("shop_domain", .str "test-shop.myshopify.com")]

/-- C5 (amended): the POST is acknowledged 200 with status success, but
the worker drops the 3-field payload unchanged; only when the body also
carries a shop_domain matching a stored shop does a ProductSync row
with product_id 555, title Widget, handle widget appear. -/
theorem products_create_scenario_amended :
    (App.webhook_products_create none rawBody555 none (some body555) true).1 =
      { status := 200, body := [("status", "success")] } ∧
    App.process_product_webhook 1 stC5 body555 = stC5 ∧
    ((App.process_product_webhook 1 stC5 body555d).products.map
      (fun r => (r.product_id, r.title, r.handle))) = [(555, "Widget", "widget")] := by
  decide

/-- A store with the shop the order webhook refers to. -/
def stC6 : DB :=
  { shops := [⟨1, "order-shop.myshopify.com", "tok6", 0, 0, true⟩],
    products := [], orders := [], order_line_items := [], inventory_levels := [],
    logs := [], nextId := 2 }

/-- An order payload whose total_price decimal string is "0.1". -/
def odC6 : JsonVal :=
  .obj [("shop_domain", .str "order-shop.myshopify.com"), ("id", .num 9001),
        ("order_number", .str "1001"), ("financial_status", .str "paid"),
        ("total_price", .str "0.1"), ("currency", .str "USD")]

set_option maxRecDepth 8000 in
/-- C6 counterexample: the order processor converts the price string
"0.1" with float(), so the stored total_price is the binary64 value
pyFloat(1/10), which is not the exact decimal 1/10. -/
theorem order_total_price_float_approximation :
    parseDecimal "0.1" = some (mkRat 1 10) ∧
    (App.process_order_webhook 1 stC6 odC6).orders.map (fun r => r.total_price) =
      [pyFloat (mkRat 1 10)] ∧
    pyFloat (mkRat 1 10) ≠ (1 : ℚ) / 10 := by
  refine ⟨by with_unfolding_all decide, ?_, by with_unfolding_all decide⟩
  have h := order_insert_stores_pyFloat 1 stC6 odC6 "order-shop.myshopify.com"
    ⟨1, "order-shop.myshopify.com", "tok6", 0, 0, true⟩ 9001 "paid" "USD" "1001" "0.1"
    (mkRat 1 10) rfl (by decide) rfl rfl rfl rfl rfl (by with_unfolding_all decide) rfl rfl
  simpa [stC6] using h.1

/-- C6 (amended): the stored total_price equals the binary64 (Python
float) rounding of the payload's price string, always a dyadic
rational, so it equals the exact decimal only when that decimal is
itself dyadic; 1/10 is not. -/
theorem order_total_price_stored_as_binary64 (now : Nat) (st : DB) (od : JsonVal) (d : String)
    (shop : ShopRow) (oid : Nat) (fs cur onum s : String) (q : ℚ)
    (hd : jget od "shop_domain" = some (.str d)) (hne : d ≠ "")
    (hshop : findShopByDomain st d = some shop)
    (hid : jget od "id" = some (.num oid))
    (hnew : st.orders.any (fun r => r.shop_id == shop.id && r.order_id == oid) = false)
    (hfs : jget od "financial_status" = some (.str fs))
    (htp : jget od "total_price" = some (.str s))
    (hq : parseDecimal s = some q)
    (hcur : jget od "currency" = some (.str cur))
    (honum : (jget od "order_number").bind orderNumberValue = some onum) :
    (App.process_order_webhook now st od).orders.map (fun r => r.total_price) =
      st.orders.map (fun r => r.total_price) ++ [pyFloat q] ∧
    IsDyadic (pyFloat q) ∧ ¬ IsDyadic ((1 : ℚ) / 10) :=
  order_insert_stores_pyFloat now st od d shop oid fs cur onum s q hd hne hshop hid hnew
    hfs htp hq hcur honum

/-- An order payload with the dyadic price string "2.5". -/
def odC6w : JsonVal :=
  .obj [("shop_domain", .str "order-shop.myshopify.com"), ("id", .num 9002),
        ("order_number", .str "1002"), ("financial_status", .str "paid"),
        ("total_price", .str "2.5"), ("currency", .str "USD")]

/-- C6 witness: the amended storage theorem at a concrete payload. -/
theorem order_total_price_stored_as_binary64_witness :
    parseDecimal "2.5" = some (mkRat 5 2) ∧
    ((App.process_order_webhook 1 stC6 odC6w).orders.map (fun r => r.total_price) =
      stC6.orders.map (fun r => r.total_price) ++ [pyFloat (mkRat 5 2)] ∧
    IsDyadic (pyFloat (mkRat 5 2)) ∧ ¬ IsDyadic ((1 : ℚ) / 10)) :=
  ⟨by with_unfolding_all decide,
   order_total_price_stored_as_binary64 1 stC6 odC6w "order-shop.myshopify.com"
     ⟨1, "order-shop.myshopify.com", "tok6", 0, 0, true⟩ 9002 "paid" "USD" "1002" "2.5"
     (mkRat 5 2) rfl (by decide) rfl rfl rfl rfl rfl (by with_unfolding_all decide) rfl rfl⟩

/-- A store with the shop the tasks.py product webhook is logged under. -/
def stC7 : DB :=
  { shops := [⟨1, "log-shop.myshopify.com", "tok7", 0, 0, true⟩],
    products := [], orders := [], order_line_items := [], inventory_levels := [],
    logs := [], nextId := 2 }

/-- A complete product payload for the tasks.py processor. -/
def pdC7 : JsonVal :=
  .obj [("id", .num 777), ("title", .str "Lamp"), ("handle", .str "lamp")]

/-- C7 counterexample: a successfully processed product webhook leaves
its WebhookLog row with terminal status "success", which lies outside
the claimed terminal vocabulary completed/failed. -/
theorem product_webhook_log_ends_success_not_completed :
    ((Tasks.process_product_webhook 1 stC7 pdC7 "log-shop.myshopify.com").logs.map
      (fun l => l.status)) = ["success"] ∧
    ("success" ≠ "completed" ∧ "success" ≠ "failed" ∧ "success" ≠ "processing") := by
  decide

/-- C7 (amended): the tasks.py product processor only appends log rows
and never touches pre-existing ones, and every row it appends is
already at a terminal status, "success" or "error" (created
processing, updated once before the single commit, never reverted). -/
theorem product_webhook_log_append_terminal (now : Nat) (st : DB) (pd : JsonVal) (d : String) :
    ∃ extra, (Tasks.process_product_webhook now st pd d).logs = st.logs ++ extra ∧
      ∀ l ∈ extra, l.status = "success" ∨ l.status = "error" := by
  unfold Tasks.process_product_webhook
  cases hshop : findShopByDomain st d with
  | none => exact ⟨[], by simp⟩
  | some shop =>
    cases hid : jget pd "id" with
    | none => exact ⟨[], by simp⟩
    | some pid =>
      dsimp only
      cases pid with
      | num pidn =>
        cases ht : jget pd "title" with
        | none =>
          refine ⟨[_], rfl, ?_⟩
          intro l hl
          rw [List.mem_singleton] at hl
          subst hl
          right
          rfl
        | some tv =>
          cases tv with
          | str title =>
            cases hh : jget pd "handle" with
            | none =>
              refine ⟨[_], rfl, ?_⟩
              intro l hl
              rw [List.mem_singleton] at hl
              subst hl
              right
              rfl
            | some hv =>
              cases hv with
              | str handle =>
                refine ⟨[_], rfl, ?_⟩
                intro l hl
                rw [List.mem_singleton] at hl
                subst hl
                left
                rfl
              | num m =>
                refine ⟨[_], rfl, ?_⟩
                intro l hl
                rw [List.mem_singleton] at hl
                subst hl
                right
                rfl
              | obj fs =>
                refine ⟨[_], rfl, ?_⟩
                intro l hl
                rw [List.mem_singleton] at hl
                subst hl
                right
                rfl
          | num m =>
            refine ⟨[_], rfl, ?_⟩
            intro l hl
            rw [List.mem_singleton] at hl
            subst hl
            right
            rfl
          | obj fs =>
            refine ⟨[_], rfl, ?_⟩
            intro l hl
            rw [List.mem_singleton] at hl
            subst hl
            right
            rfl
      | str s =>
        refine ⟨[_], rfl, ?_⟩
        intro l hl
        rw [List.mem_singleton] at hl
        subst hl
        right
        rfl
      | obj fs =>
        refine ⟨[_], rfl, ?_⟩
        intro l hl
        rw [List.mem_singleton] at hl
        subst hl
        right
        rfl

/-- C8: with no configured webhook secret the verifier accepts every
body/signature combination, including an absent signature header. -/
theorem verify_webhook_no_secret_accepts_all (data : List Nat) (signature : Option String) :
    verify_webhook none data signature = true := rfl

/-- A store whose only shop does not match the compliance payload. -/
def stC9 : DB :=
  { shops := [⟨1, "still-here.myshopify.com", "tok9", 0, 0, true⟩],
    products := [], orders := [], order_line_items := [], inventory_levels := [],
    logs := [], nextId := 2 }

/-- A customers/data_request payload whose shop domain resolves to no
stored shop. -/
def pdC9 : JsonVal :=
  .obj [("shop_id", .num 954889), ("shop_domain", .str "gone.myshopify.com"),
        ("customer", .obj [("id", .num 191167), ("email", .str "john@example.com")]),
        ("data_request", .obj [("id", .num 9999)])]

/-- C9: the claim fails on the code.  When the shop is unresolved the
processor persists no audit row at all: the WebhookLog constructor
raises on the unmapped payload keyword, and the shop_id column is
declared NOT NULL besides, so a null-shop audit row can never be
stored; the whole store is returned unchanged. -/
theorem customer_data_request_persists_no_log :
    App.process_customer_data_request 1 stC9 pdC9 = stC9 ∧
    ((App.process_customer_data_request 1 stC9 pdC9).logs.filter
      (fun l => l.shop_id == none)) = [] ∧
    (App.process_customer_data_request 1 stC9 pdC9).logs = [] := by
  decide

/-- C10: product and order payloads whose shop_domain is missing (or
falsy) or matches no stored Shop are dropped without any effect: the
processors return the store exactly as given, so no sync rows, shops
or audit log entries are created. -/
theorem webhook_drop_unknown_shop (now : Nat) (st : DB) (pd : JsonVal)
    (h : isFalsy (jget pd "shop_domain") = true ∨
         ∃ d, jget pd "shop_domain" = some (.str d) ∧ findShopByDomain st d = none) :
    App.process_product_webhook now st pd = st ∧ App.process_order_webhook now st pd = st := by
  rcases h with hf | ⟨d, hd, hfind⟩
  · constructor
    · simp [App.process_product_webhook, hf]
    · simp [App.process_order_webhook, hf]
  · by_cases hd0 : d = ""
    · subst hd0
      have hf : isFalsy (jget pd "shop_domain") = true := by rw [hd]; rfl
      constructor
      · simp [App.process_product_webhook, hf]
      · simp [App.process_order_webhook, hf]
    · have hdf : (d == "") = false := by simp [hd0]
      constructor
      · unfold App.process_product_webhook
        rw [hd]
        simp only [isFalsy, hdf, Bool.false_eq_true, if_false, hfind]
      · unfold App.process_order_webhook
        rw [hd]
        simp only [isFalsy, hdf, Bool.false_eq_true, if_false, hfind]

/-- A store with one shop unrelated to the dropped payload. -/
def stC10 : DB :=
  { shops := [⟨1, "known.myshopify.com", "tok10", 0, 0, true⟩],
    products := [], orders := [], order_line_items := [], inventory_levels := [],
    logs := [], nextId := 2 }

/-- A payload for a shop domain that is not stored. -/
def pdC10 : JsonVal :=
  .obj [("shop_domain", .str "other.myshopify.com"), ("id", .num 42),
        ("title", .str "Ghost"), ("handle", .str "ghost")]

/-- C10 witness: the drop theorem at a concrete store and payload. -/
theorem webhook_drop_unknown_shop_witness :
    (isFalsy (jget pdC10 "shop_domain") = true ∨
      ∃ d, jget pdC10 "shop_domain" = some (.str d) ∧ findShopByDomain stC10 d = none) ∧
    (App.process_product_webhook 1 stC10 pdC10 = stC10 ∧
     App.process_order_webhook 1 stC10 pdC10 = stC10) :=
  ⟨Or.inr ⟨"other.myshopify.com", rfl, rfl⟩,
   webhook_drop_unknown_shop 1 stC10 pdC10 (Or.inr ⟨"other.myshopify.com", rfl, rfl⟩)⟩

end ShopifyApp
